import Mathlib

/-!
Shallow embedding of the osom-work worker runtime
(`src/osom_api/apps/worker/context.py`).

External collaborator calls (Redis mq, database, S3 object store, the
pluggable handler module and the message codec) are modelled by an
environment `Env` whose fields give, for each call, either success or the
exception the call raises.  Each runtime operation is embedded as a pure
function from the environment to a trace of externally visible events
(`Event`) together with either a normal result or the exception it raises.
-/

namespace OsomWorker

/-- Byte strings on the wire, modelled as lists of naturals. -/
abbrev Bytes := List Nat

/-- Deterministic byte rendering of a string (stands in for UTF-8). -/
def strBytes (s : String) : Bytes := s.toList.map Char.toNat

/-- Exceptions that can travel through the worker runtime.  The named
constructors embed the classes imported from `osom_api.exceptions`
(not under `src/`; modelled from the spec §7 taxonomy together with the
`except` clauses of `start_polling`); `bufferError` is the Python builtin
`BufferError` raised by `upload_msg_file`; `externalError` stands for any
other exception raised by a collaborator. -/
inductive Exc where
  | pollingTimeoutError
  | packetLoadError
  | noMessageIdError
  | invalidMessageIdError
  | commandRuntimeError
  | packetDumpError
  | bufferError
  | externalError (tag : String)
deriving DecidableEq, Repr

/-- Modelled from the spec: `osom_api.exceptions` is not under `src/`.
The §7 taxonomy of the spec assigns every named fault class a loop-level
disposition other than "Unclassified fault — anything else; propagated",
and `start_polling` lists `NoMessageIdError` and `CommandRuntimeError`
before the catch-all `except OsomApiError`, so all named classes subclass
`OsomApiError`; `BufferError` and other collaborator exceptions do not. -/
def Exc.isOsomApiError : Exc → Bool
  | .pollingTimeoutError => true
  | .packetLoadError => true
  | .noMessageIdError => true
  | .invalidMessageIdError => true
  | .commandRuntimeError => true
  | .packetDumpError => true
  | .bufferError => false
  | .externalError _ => false

/-- Python `str(e)`: the message carried by each exception, as constructed in
`context.py` (or by the raising collaborator, for external exceptions). -/
def Exc.message : Exc → String
  | .pollingTimeoutError => "Blocking Right POP operation timeout"
  | .packetLoadError => "Packet decoding fail"
  | .noMessageIdError => "Message UUID does not exist"
  | .invalidMessageIdError =>
      "The UUID in the request message and " ++
      "the UUID in the response message must be the same"
  | .commandRuntimeError => "A command runtime error was detected"
  | .packetDumpError => "Response packet encoding fail"
  | .bufferError => "Empty file content"
  | .externalError tag => tag

/-- Flow tag distinguishing request-side from response-side file links
(`osom_api.msg.MsgFlow`, modelled from the spec §3). -/
inductive MsgFlow where
  | request
  | response
deriving DecidableEq, Repr

/-- Storage kind recorded on a file metadata row (`osom_api.msg.MsgStorage`;
`upload_msg_file` defaults it to `r2`). -/
inductive MsgStorage where
  | r2
deriving DecidableEq, Repr

/-- Modelled from the spec: `osom_api.msg.MsgFile` is not under `src/`;
fields follow spec §3 **File** and the attribute accesses in
`upload_msg_file`. -/
structure MsgFile where
  file_uuid : String
  provider : String
  name : String
  content_type : String
  native_id : String
  content : Option Bytes
  path : String
  created_at : String
deriving DecidableEq, Repr

/-- Modelled from the spec: `osom_api.msg.MsgRequest` is not under `src/`;
fields follow spec §3 **Request** and the attribute accesses in
`context.py`. -/
structure MsgRequest where
  msg_uuid : String
  provider : String
  message_id : String
  channel_id : String
  username : String
  nickname : String
  content : String
  files : List MsgFile
  created_at : String
deriving DecidableEq, Repr

/-- Modelled from the spec: the reply path is "derived deterministically
from the identity of the Request itself" (§6); we derive it from the correlation
key. -/
def MsgRequest.get_response_path (r : MsgRequest) : String :=
  "/osom/api/response/" ++ r.msg_uuid

/-- Modelled from the spec: `osom_api.msg.MsgResponse` is not under `src/`;
fields follow spec §3 **Response**.  `MsgResponse(msg_uuid, error=str(e))`
in `polling_iter` leaves `content` empty and `files` empty. -/
structure MsgResponse where
  msg_uuid : String
  content : Option String
  error : Option String
  files : List MsgFile
  created_at : String
deriving DecidableEq, Repr

/-- Modelled from the spec: `osom_api.worker.module.Module` is not under
`src/`; static metadata per spec §4.1 (`run` itself lives in `Env`). -/
structure Module where
  name : String
  version : String
  doc : String
  path : String
  cmds : List String
deriving DecidableEq, Repr

/-- Modelled from the spec: `osom_api.msg.MsgWorker` (the WorkerDescriptor
of spec §3) is not under `src/`. -/
structure MsgWorker where
  name : String
  version : String
  doc : String
  path : String
  cmds : List String
deriving DecidableEq, Repr

/-- Modelled from the spec: a deterministic `encode() -> bytes` for the
WorkerDescriptor (spec §6 requires determinism; the concrete rendering is
immaterial to the claims). -/
def MsgWorker.encode (w : MsgWorker) : Bytes :=
  strBytes (w.name ++ "|" ++ w.version ++ "|" ++ w.doc ++ "|" ++ w.path
    ++ "|" ++ String.intercalate (",") w.cmds)

/-- Modelled from the spec: fixed well-known channel paths
(`osom_api.paths`, not under `src/`; spec §6). -/
def MQ_BROADCAST_PATH : String := "/osom/api/broadcast"

/-- Modelled from the spec: the registration channel path (§6). -/
def MQ_REGISTER_WORKER_PATH : String := "/osom/api/register/worker"

/-- Modelled from the spec: the registration-request channel path (§6). -/
def MQ_REGISTER_WORKER_REQUEST_PATH : String :=
  "/osom/api/register/worker/request"

/-- Modelled from the spec: `osom_api.utils.path.mq.encode_path` is not
under `src/`; it renders a channel path to bytes. -/
def encode_path (s : String) : Bytes := strBytes s

/-- The slice of `WorkerConfig` read by the runtime (`config.py` plus the
common `Config` fields accessed in `context.py`).  The float-valued
timeouts are embedded as rationals. -/
structure WorkerConfigM where
  redis_blocking_timeout : Rat
  redis_expire_medium : Rat
  verbose : Nat
  debug : Bool
deriving DecidableEq, Repr

/-- The state of one `WorkerContext` relevant to the claims: its config and
the static metadata of the loaded module. -/
structure WorkerContext where
  config : WorkerConfigM
  module : Module
deriving DecidableEq, Repr

/-- Field `self._register`: the WorkerDescriptor built once in `__init__` from
the static metadata of the module. -/
def WorkerContext.register (ctx : WorkerContext) : MsgWorker :=
  ⟨ctx.module.name, ctx.module.version, ctx.module.doc, ctx.module.path,
    ctx.module.cmds⟩

/-- Field `self._register_packet`: the encoded descriptor, computed once in
`__init__`. -/
def WorkerContext.register_packet (ctx : WorkerContext) : Bytes :=
  ctx.register.encode

/-- Field `self._register_request_path` from `__init__`. -/
def WorkerContext.register_request_path (_ctx : WorkerContext) : Bytes :=
  encode_path MQ_REGISTER_WORKER_REQUEST_PATH

/-- Field `self._broadcast_path` from `__init__`. -/
def WorkerContext.broadcast_path (_ctx : WorkerContext) : Bytes :=
  encode_path MQ_BROADCAST_PATH

/-- Externally visible effects of one runtime operation, in order. -/
inductive Event where
  | brpop (path : String) (timeout : Int)
  | s3UploadData (key : String)
  | dbInsertFile (file_uuid : String) (storage : MsgStorage)
  | dbInsertMsg2File (msg_uuid : String) (file_uuid : String) (flow : MsgFlow)
  | dbInsertMsg (msg_uuid : String)
  | dbInsertReply (msg : String) (error : Option String)
  | mqLpush (path : String) (packet : Bytes) (expire : Int)
  | mqPublish (path : String) (packet : Bytes)
deriving DecidableEq, Repr

/-- Behaviour of the external collaborators during one iteration: for each
call, success (with its result) or the exception it raises.  `none` in an
`Option Exc` field means the call succeeds. -/
structure Env where
  /-- Call `mq.brpop_bytes`: raises, times out (`.ok none`), or yields
  `(key, data)`. -/
  brpopResult : Except Exc (Option (Bytes × Bytes))
  /-- Call `MsgRequest.decode`: the decoded request, or the exception decoding
  raises. -/
  decodeRequest : Bytes → Except Exc MsgRequest
  /-- Call `s3.upload_data`. -/
  uploadData : MsgFile → Option Exc
  /-- Call `db.insert_file`. -/
  insertFile : MsgFile → Option Exc
  /-- Call `db.insert_msg2file`. -/
  insertMsg2File : String → MsgFile → MsgFlow → Option Exc
  /-- Call `db.insert_msg`. -/
  insertMsg : MsgRequest → Option Exc
  /-- Call `db.insert_reply`. -/
  insertReply : MsgResponse → Option Exc
  /-- Call `module.run`: the response of the handler, or the exception it raises. -/
  moduleRun : MsgRequest → Except Exc MsgResponse
  /-- Call `MsgResponse.encode`: the packet, or the exception encoding raises. -/
  encodeResponse : MsgResponse → Except Exc Bytes
  /-- Call `mq.lpush_bytes`. -/
  lpushResult : Option Exc
  /-- The `created_at` timestamp given to a response constructed now. -/
  now : String

/-- Embeds `WorkerContext.upload_msg_file`: guard on absent content, then object
upload, then file metadata insert, then message-to-file link insert; the
first raising call aborts the rest. -/
def upload_msg_file (env : Env) (file : MsgFile) (msg_uuid : String)
    (flow : MsgFlow) (storage : MsgStorage := .r2) :
    List Event × Option Exc :=
  match file.content with
  | none => ([], some .bufferError)
  | some _ =>
    let e1 := Event.s3UploadData file.path
    match env.uploadData file with
    | some exc => ([e1], some exc)
    | none =>
      let e2 := Event.dbInsertFile file.file_uuid storage
      match env.insertFile file with
      | some exc => ([e1, e2], some exc)
      | none =>
        let e3 := Event.dbInsertMsg2File msg_uuid file.file_uuid flow
        match env.insertMsg2File msg_uuid file flow with
        | some exc => ([e1, e2, e3], some exc)
        | none => ([e1, e2, e3], none)

/-- Embeds `WorkerContext.upload_msg_files`: files in order, stopping at the first
raising file. -/
def upload_msg_files (env : Env) (files : List MsgFile) (msg_uuid : String)
    (flow : MsgFlow) (storage : MsgStorage := .r2) :
    List Event × Option Exc :=
  match files with
  | [] => ([], none)
  | f :: rest =>
    let r := upload_msg_file env f msg_uuid flow storage
    match r.2 with
    | some exc => (r.1, some exc)
    | none =>
      let r2 := upload_msg_files env rest msg_uuid flow storage
      (r.1 ++ r2.1, r2.2)

/-- Embeds `WorkerContext.upload_msg_request`: insert the message record, then
upload the attached files with the `request` flow. -/
def upload_msg_request (env : Env) (message : MsgRequest) :
    List Event × Option Exc :=
  let e1 := Event.dbInsertMsg message.msg_uuid
  match env.insertMsg message with
  | some exc => ([e1], some exc)
  | none =>
    let r := upload_msg_files env message.files message.msg_uuid .request
    (e1 :: r.1, r.2)

/-- Embeds `WorkerContext.upload_msg_response`: insert the reply record, then
upload the attached files with the `response` flow. -/
def upload_msg_response (env : Env) (message : MsgResponse) :
    List Event × Option Exc :=
  let e1 := Event.dbInsertReply message.msg_uuid message.error
  match env.insertReply message with
  | some exc => ([e1], some exc)
  | none =>
    let r := upload_msg_files env message.files message.msg_uuid .response
    (e1 :: r.1, r.2)

/-- The fallback `MsgResponse(request.msg_uuid, error=str(e))`: the error
response built in `polling_iter` when `on_message` raises. -/
def errorResponse (msg_uuid : String) (e : Exc) (now : String) : MsgResponse :=
  ⟨msg_uuid, none, some e.message, [], now⟩

/-- Embeds `WorkerContext.on_message`: persist the request, run the handler
(wrapping any exception into `CommandRuntimeError`), persist the response,
then raise `InvalidMessageIdError` on a correlation mismatch. -/
def on_message (env : Env) (request : MsgRequest) :
    List Event × Except Exc MsgResponse :=
  let r1 := upload_msg_request env request
  match r1.2 with
  | some exc => (r1.1, .error exc)
  | none =>
    match env.moduleRun request with
    | .error _ => (r1.1, .error .commandRuntimeError)
    | .ok response =>
      let r2 := upload_msg_response env response
      match r2.2 with
      | some exc => (r1.1 ++ r2.1, .error exc)
      | none =>
        if response.msg_uuid ≠ request.msg_uuid then
          (r1.1 ++ r2.1, .error .invalidMessageIdError)
        else
          (r1.1 ++ r2.1, .ok response)

/-- Lines 215-222 of `context.py`: the response that reaches the encode
step — the handler result when `on_message` returned, otherwise the
fallback error response built from the caught exception. -/
def polled_response (env : Env) (request : MsgRequest) : MsgResponse :=
  match (on_message env request).2 with
  | .ok resp => resp
  | .error exc => errorResponse request.msg_uuid exc env.now

/-- Embeds `WorkerContext.polling_iter` after the blocking pop returned:
decode, correlation-key guard, `on_message` with its `BaseException`
fallback into an error response, encode, push to the reply path with the
floored medium expiry. -/
def polling_iter_body (ctx : WorkerContext) (env : Env) :
    List Event × Option Exc :=
  match env.brpopResult with
  | .error exc => ([], some exc)
  | .ok none => ([], some .pollingTimeoutError)
  | .ok (some packet) =>
    if packet.1 ≠ encode_path ctx.module.path then
      ([], some (.externalError ("AssertionError")))
    else
      match env.decodeRequest packet.2 with
      | .error _ => ([], some .packetLoadError)
      | .ok request =>
        if request.msg_uuid = "" then
          ([], some .noMessageIdError)
        else
          let r := on_message env request
          match env.encodeResponse (polled_response env request) with
          | .error _ => (r.1, some .packetDumpError)
          | .ok response_packet =>
            let response_path := request.get_response_path
            let expire := Rat.floor ctx.config.redis_expire_medium
            let push := Event.mqLpush response_path response_packet expire
            match env.lpushResult with
            | some exc => (r.1 ++ [push], some exc)
            | none => (r.1 ++ [push], none)

/-- Embeds `WorkerContext.polling_iter`: the blocking pop with the floored
configured timeout, then `polling_iter_body`.  The second component of the
result is the exception the iteration raises (`none` when it returns
normally). -/
def polling_iter (ctx : WorkerContext) (env : Env) :
    List Event × Option Exc :=
  let timeout := Rat.floor ctx.config.redis_blocking_timeout
  let r := polling_iter_body ctx env
  (Event.brpop ctx.module.path timeout :: r.1, r.2)

/-- How one turn of the `try`/`except` ladder in `start_polling` disposes of an
exception raised by `polling_iter`. -/
inductive LoopOutcome where
  /-- Clause `except NoMessageIdError: pass` — continue, nothing logged. -/
  | continueSilent
  /-- Clause `except CommandRuntimeError as e: logger.error(e)` — continue. -/
  | continueLogError
  /-- Clause `except OsomApiError as e: logger.debug(e)` — continue. -/
  | continueLogDebug
  /-- no matching clause: the exception escapes `start_polling`. -/
  | propagate
deriving DecidableEq, Repr

/-- The `except` ladder of `WorkerContext.start_polling`, in clause
order. -/
def classify_loop_exc (e : Exc) : LoopOutcome :=
  if e = .noMessageIdError then .continueSilent
  else if e = .commandRuntimeError then .continueLogError
  else if e.isOsomApiError then .continueLogDebug
  else .propagate

/-- Embeds `WorkerContext.start_polling`, run over a finite script of per-
iteration environments (the infinite loop observed for `envs.length`
iterations).  Returns the accumulated trace and, when the exception of some
iteration had no matching `except` clause, that propagated exception. -/
def start_polling (ctx : WorkerContext) : List Env → List Event × Option Exc
  | [] => ([], none)
  | env :: rest =>
    let r := polling_iter ctx env
    match r.2 with
    | none =>
      let r2 := start_polling ctx rest
      (r.1 ++ r2.1, r2.2)
    | some exc =>
      match classify_loop_exc exc with
      | .propagate => (r.1, some exc)
      | _ =>
        let r2 := start_polling ctx rest
        (r.1 ++ r2.1, r2.2)

/-- Embeds `WorkerContext.publish_register_worker`: publish the startup-encoded
descriptor packet to the registration channel. -/
def publish_register_worker (ctx : WorkerContext) : List Event :=
  [Event.mqPublish MQ_REGISTER_WORKER_PATH ctx.register_packet]

/-- Embeds `WorkerContext.on_mq_connect`: the startup publication. -/
def on_mq_connect (ctx : WorkerContext) : List Event :=
  publish_register_worker ctx

/-- Embeds `WorkerContext.on_mq_subscribe`: re-publish the descriptor iff the
message arrived on the registration-request channel. -/
def on_mq_subscribe (ctx : WorkerContext) (channel : Bytes)
    (_data : Bytes) : List Event :=
  if ctx.register_request_path = channel then
    publish_register_worker ctx
  else
    []

/-! Concrete fixtures used to evaluate the embedded runtime on closed
inputs. -/

/-- A concrete file with content present. -/
def cFile : MsgFile :=
  ⟨"file-1", "worker", "a.txt", "text/plain", "n1", some [1, 2, 3],
    "/files/a.txt", "2026-01-01"⟩

/-- A concrete file whose content is absent. -/
def cFileNoContent : MsgFile :=
  { cFile with file_uuid := "file-none", content := none }

/-- A concrete request with one attached file. -/
def cRequest : MsgRequest :=
  ⟨"req-1", "worker", "m1", "c1", "alice", "Alice", "/help", [cFile],
    "2026-01-01"⟩

/-- A well-correlated handler response for `cRequest`. -/
def cResponseGood : MsgResponse :=
  ⟨"req-1", some "ok", none, [], "2026-01-02"⟩

/-- A miscorrelated handler response for `cRequest`. -/
def cResponseBad : MsgResponse :=
  ⟨"other-uuid", some "ok", none, [], "2026-01-02"⟩

/-- A concrete loaded module. -/
def cModule : Module := ⟨"mod", "1.0", "doc", "/osom/worker/mod", ["help"]⟩

/-- A concrete worker context (timeout 7.5 s, expire 600 s). -/
def cCtx : WorkerContext := ⟨⟨(15 : Rat) / 2, 600, 0, false⟩, cModule⟩

/-- An environment in which every collaborator call succeeds, the queue
yields a packet decoding to `req`, and the handler returns `runRes`. -/
def baseEnv (req : MsgRequest) (runRes : Except Exc MsgResponse) : Env where
  brpopResult := .ok (some (encode_path cModule.path, strBytes ("payload")))
  decodeRequest := fun _ => .ok req
  uploadData := fun _ => none
  insertFile := fun _ => none
  insertMsg2File := fun _ _ _ => none
  insertMsg := fun _ => none
  insertReply := fun _ => none
  moduleRun := fun _ => runRes
  encodeResponse := fun r =>
    .ok (strBytes (r.msg_uuid ++ ";" ++ (r.error.getD "")))
  lpushResult := none
  now := "now"

/-! Helper lemmas about the shapes of persistence traces. -/

/-- Events a persistence operation can emit (no queue pushes, no
publications). -/
def Event.isPersist : Event → Bool
  | .s3UploadData _ => true
  | .dbInsertFile _ _ => true
  | .dbInsertMsg2File _ _ _ => true
  | .dbInsertMsg _ => true
  | .dbInsertReply _ _ => true
  | _ => false

theorem upload_msg_file_events (env : Env) (f : MsgFile) (u : String)
    (fl : MsgFlow) (st : MsgStorage) (e : Event)
    (he : e ∈ (upload_msg_file env f u fl st).1) :
    e = .s3UploadData f.path ∨ e = .dbInsertFile f.file_uuid st ∨
      e = .dbInsertMsg2File u f.file_uuid fl := by
  unfold upload_msg_file at he
  rcases hc : f.content with _ | c
  · simp [hc] at he
  · rcases h1 : env.uploadData f with _ | exc
    · rcases h2 : env.insertFile f with _ | exc2
      · rcases h3 : env.insertMsg2File u f fl with _ | exc3 <;>
          simp [hc, h1, h2, h3] at he <;> tauto
      · simp [hc, h1, h2] at he; tauto
    · simp [hc, h1] at he; tauto

theorem upload_msg_files_events (env : Env) (fs : List MsgFile) (u : String)
    (fl : MsgFlow) (st : MsgStorage) (e : Event)
    (he : e ∈ (upload_msg_files env fs u fl st).1) :
    ∃ f ∈ fs, e = .s3UploadData f.path ∨ e = .dbInsertFile f.file_uuid st ∨
      e = .dbInsertMsg2File u f.file_uuid fl := by
  induction fs with
  | nil => simp [upload_msg_files] at he
  | cons f rest ih =>
    unfold upload_msg_files at he
    rcases h : (upload_msg_file env f u fl st).2 with _ | exc
    · simp [h] at he
      rcases he with he | he
      · exact ⟨f, by simp, upload_msg_file_events env f u fl st e he⟩
      · obtain ⟨g, hg, hor⟩ := ih he
        exact ⟨g, by simp [hg], hor⟩
    · simp [h] at he
      exact ⟨f, by simp, upload_msg_file_events env f u fl st e he⟩

theorem upload_msg_request_events (env : Env) (m : MsgRequest) (e : Event)
    (he : e ∈ (upload_msg_request env m).1) :
    e = .dbInsertMsg m.msg_uuid ∨
      ∃ f ∈ m.files, e = .s3UploadData f.path ∨
        e = .dbInsertFile f.file_uuid .r2 ∨
        e = .dbInsertMsg2File m.msg_uuid f.file_uuid .request := by
  unfold upload_msg_request at he
  rcases h : env.insertMsg m with _ | exc
  · simp [h] at he
    rcases he with he | he
    · exact .inl he
    · exact .inr (upload_msg_files_events env m.files m.msg_uuid .request .r2 e he)
  · simp [h] at he
    exact .inl he

theorem upload_msg_response_events (env : Env) (m : MsgResponse) (e : Event)
    (he : e ∈ (upload_msg_response env m).1) :
    e = .dbInsertReply m.msg_uuid m.error ∨
      ∃ f ∈ m.files, e = .s3UploadData f.path ∨
        e = .dbInsertFile f.file_uuid .r2 ∨
        e = .dbInsertMsg2File m.msg_uuid f.file_uuid .response := by
  unfold upload_msg_response at he
  rcases h : env.insertReply m with _ | exc
  · simp [h] at he
    rcases he with he | he
    · exact .inl he
    · exact .inr (upload_msg_files_events env m.files m.msg_uuid .response .r2 e he)
  · simp [h] at he
    exact .inl he

/-- Every event emitted by `on_message` is a persistence event. -/
theorem on_message_events_persist (env : Env) (req : MsgRequest) (e : Event)
    (he : e ∈ (on_message env req).1) : e.isPersist = true := by
  unfold on_message at he
  rcases h1 : (upload_msg_request env req).2 with _ | exc
  · rcases h2 : env.moduleRun req with exc2 | resp
    · simp [h1, h2] at he
      rcases upload_msg_request_events env req e he with h | ⟨f, _, h | h | h⟩ <;>
        simp [h, Event.isPersist]
    · rcases h3 : (upload_msg_response env resp).2 with _ | exc3
      · by_cases hm : resp.msg_uuid = req.msg_uuid <;>
          · simp [h1, h2, h3, hm] at he
            rcases he with he | he
            · rcases upload_msg_request_events env req e he with h | ⟨f, _, h | h | h⟩ <;>
                simp [h, Event.isPersist]
            · rcases upload_msg_response_events env resp e he with h | ⟨f, _, h | h | h⟩ <;>
                simp [h, Event.isPersist]
      · simp [h1, h2, h3] at he
        rcases he with he | he
        · rcases upload_msg_request_events env req e he with h | ⟨f, _, h | h | h⟩ <;>
            simp [h, Event.isPersist]
        · rcases upload_msg_response_events env resp e he with h | ⟨f, _, h | h | h⟩ <;>
            simp [h, Event.isPersist]
  · simp [h1] at he
    rcases upload_msg_request_events env req e he with h | ⟨f, _, h | h | h⟩ <;>
      simp [h, Event.isPersist]

/-! Claim theorems. -/

/-- C9: a File whose `content` is absent at upload time makes
`upload_msg_file` raise the hard `BufferError` fault with an empty trace —
no object-store upload and no database insert happen for that File, and it
is not silently skipped (the operation raises instead of returning
normally). -/
theorem C9_absent_content_hard_fault (env : Env) (f : MsgFile) (u : String)
    (fl : MsgFlow) (st : MsgStorage) (h : f.content = none) :
    upload_msg_file env f u fl st = ([], some .bufferError) := by
  unfold upload_msg_file
  rw [h]

/-- Witness for C9 on the concrete content-less file. -/
theorem C9_absent_content_hard_fault_witness :
    upload_msg_file (baseEnv cRequest (.ok cResponseGood)) cFileNoContent
      ("req-1") .request .r2 = ([], some .bufferError) :=
  C9_absent_content_hard_fault (baseEnv cRequest (.ok cResponseGood))
    cFileNoContent ("req-1") .request .r2 (by decide)

/-- C5: persistence ordering.  (1) For one File the emitted trace is an
initial segment of object upload, then file metadata insert, then
message-to-file link insert, in that order; (2) a failed object upload
leaves exactly the upload attempt in the trace, so the metadata and link
inserts for that File are never attempted; (3)/(4) persisting a Request
(resp. Response) inserts the message (resp. reply) record first and then
processes the attached Files; (5)/(6) Files are processed in list order,
the trace of a successful head File preceding the traces of the rest, and
a raising head File cutting off the rest. -/
theorem C5_persistence_ordering :
    (∀ env (f : MsgFile) u fl st, f.content.isSome →
      ∃ t, (upload_msg_file env f u fl st).1 ++ t =
        [Event.s3UploadData f.path, Event.dbInsertFile f.file_uuid st,
          Event.dbInsertMsg2File u f.file_uuid fl]) ∧
    (∀ env (f : MsgFile) u fl st exc, f.content.isSome →
      env.uploadData f = some exc →
      upload_msg_file env f u fl st =
        ([Event.s3UploadData f.path], some exc)) ∧
    (∀ env (m : MsgRequest), env.insertMsg m = none →
      upload_msg_request env m =
        (Event.dbInsertMsg m.msg_uuid ::
            (upload_msg_files env m.files m.msg_uuid .request .r2).1,
          (upload_msg_files env m.files m.msg_uuid .request .r2).2)) ∧
    (∀ env (m : MsgResponse), env.insertReply m = none →
      upload_msg_response env m =
        (Event.dbInsertReply m.msg_uuid m.error ::
            (upload_msg_files env m.files m.msg_uuid .response .r2).1,
          (upload_msg_files env m.files m.msg_uuid .response .r2).2)) ∧
    (∀ env (f : MsgFile) rest u fl st,
      (upload_msg_file env f u fl st).2 = none →
      (upload_msg_files env (f :: rest) u fl st).1 =
        (upload_msg_file env f u fl st).1 ++
          (upload_msg_files env rest u fl st).1) ∧
    (∀ env (f : MsgFile) rest u fl st exc,
      (upload_msg_file env f u fl st).2 = some exc →
      upload_msg_files env (f :: rest) u fl st =
        ((upload_msg_file env f u fl st).1, some exc)) := by
  refine ⟨?_, ?_, ?_, ?_, ?_, ?_⟩
  · intro env f u fl st hc
    rcases hcc : f.content with _ | c
    · rw [hcc] at hc; simp at hc
    · unfold upload_msg_file
      rw [hcc]
      rcases h1 : env.uploadData f with _ | exc
      · rcases h2 : env.insertFile f with _ | exc2
        · rcases h3 : env.insertMsg2File u f fl with _ | exc3 <;>
            simp only [h1, h2, h3] <;> exact ⟨[], rfl⟩
        · simp only [h1, h2]
          exact ⟨[Event.dbInsertMsg2File u f.file_uuid fl], rfl⟩
      · simp only [h1]
        exact ⟨[Event.dbInsertFile f.file_uuid st,
          Event.dbInsertMsg2File u f.file_uuid fl], rfl⟩
  · intro env f u fl st exc hc hu
    rcases hcc : f.content with _ | c
    · rw [hcc] at hc; simp at hc
    · unfold upload_msg_file
      rw [hcc]
      simp [hu]
  · intro env m h
    unfold upload_msg_request
    rw [h]
  · intro env m h
    unfold upload_msg_response
    rw [h]
  · intro env f rest u fl st h
    simp only [upload_msg_files, h]
  · intro env f rest u fl st exc h
    simp only [upload_msg_files, h]

/-- Witness for C5: the failed-upload conjunct applied to the concrete
file against an environment whose object store rejects it. -/
theorem C5_persistence_ordering_witness :
    upload_msg_file
      { baseEnv cRequest (.ok cResponseGood) with
          uploadData := fun _ => some (.externalError ("S3Error")) }
      cFile ("req-1") .request .r2 =
      ([Event.s3UploadData ("/files/a.txt")],
        some (.externalError ("S3Error"))) :=
  C5_persistence_ordering.2.1
    { baseEnv cRequest (.ok cResponseGood) with
        uploadData := fun _ => some (.externalError ("S3Error")) }
    cFile ("req-1") .request .r2 (.externalError ("S3Error"))
    (by decide) rfl

/-- C6: a message on the registration-request channel causes exactly one
publication, of exactly the startup-encoded descriptor packet (the same
bytes `on_mq_connect` publishes); a message on any other channel causes no
publication, whatever the payload. -/
theorem C6_reregistration (ctx : WorkerContext) (channel d : Bytes) :
    (channel = ctx.register_request_path →
      on_mq_subscribe ctx channel d =
        [Event.mqPublish MQ_REGISTER_WORKER_PATH ctx.register_packet] ∧
      on_mq_subscribe ctx channel d = on_mq_connect ctx) ∧
    (channel ≠ ctx.register_request_path →
      on_mq_subscribe ctx channel d = []) := by
  constructor
  · intro h
    subst h
    exact ⟨by simp [on_mq_subscribe, publish_register_worker],
      by simp [on_mq_subscribe, on_mq_connect, publish_register_worker]⟩
  · intro h
    unfold on_mq_subscribe
    rw [if_neg (fun hh => h hh.symm)]

/-- Witness for C6: the registration-request channel triggers the startup
packet, while the broadcast channel triggers nothing. -/
theorem C6_reregistration_witness :
    on_mq_subscribe cCtx (encode_path MQ_REGISTER_WORKER_REQUEST_PATH) [] =
      [Event.mqPublish MQ_REGISTER_WORKER_PATH cCtx.register_packet] ∧
    on_mq_subscribe cCtx (encode_path MQ_BROADCAST_PATH) [] = [] :=
  ⟨((C6_reregistration cCtx
      (encode_path MQ_REGISTER_WORKER_REQUEST_PATH) []).1 rfl).1,
    (C6_reregistration cCtx (encode_path MQ_BROADCAST_PATH) []).2
      (by decide)⟩

/-- C8: every iteration performs the blocking pop with the configured
timeout floored to an integer (first trace event, for any environment);
an empty pop result raises only the recoverable `PollingTimeoutError`,
which the loop catches and merely debug-logs; and `n` consecutive timeout
iterations leave the loop running with the subsequent script processed
exactly as it would be from the start. -/
theorem C8_timeout_floored_and_recoverable (ctx : WorkerContext) (env : Env)
    (n : Nat) (rest : List Env) (ht : env.brpopResult = .ok none) :
    (∀ env2 : Env, (polling_iter ctx env2).1.head? =
      some (Event.brpop ctx.module.path
        (Rat.floor ctx.config.redis_blocking_timeout))) ∧
    polling_iter ctx env =
      ([Event.brpop ctx.module.path
          (Rat.floor ctx.config.redis_blocking_timeout)],
        some .pollingTimeoutError) ∧
    classify_loop_exc .pollingTimeoutError = .continueLogDebug ∧
    start_polling ctx (List.replicate n env ++ rest) =
      (List.replicate n (Event.brpop ctx.module.path
          (Rat.floor ctx.config.redis_blocking_timeout)) ++
        (start_polling ctx rest).1, (start_polling ctx rest).2) := by
  have hiter : polling_iter ctx env =
      ([Event.brpop ctx.module.path
          (Rat.floor ctx.config.redis_blocking_timeout)],
        some .pollingTimeoutError) := by
    simp [polling_iter, polling_iter_body, ht]
  refine ⟨fun env2 => by simp [polling_iter], hiter, rfl, ?_⟩
  induction n with
  | zero => simp
  | succ k ih =>
    rw [List.replicate_succ, List.cons_append]
    simp only [start_polling, hiter, classify_loop_exc]
    simp [ih, Exc.isOsomApiError, List.replicate_succ]

/-- Witness for C8: three consecutive timeouts, then an environment that
delivers a full successful exchange, processed as from the start. -/
theorem C8_timeout_floored_and_recoverable_witness :
    (polling_iter cCtx
        { baseEnv cRequest (.ok cResponseGood) with brpopResult := .ok none }).1.head? =
      some (Event.brpop cCtx.module.path
        (Rat.floor cCtx.config.redis_blocking_timeout)) ∧
    polling_iter cCtx
        { baseEnv cRequest (.ok cResponseGood) with brpopResult := .ok none } =
      ([Event.brpop cCtx.module.path
          (Rat.floor cCtx.config.redis_blocking_timeout)],
        some .pollingTimeoutError) ∧
    classify_loop_exc .pollingTimeoutError = .continueLogDebug ∧
    start_polling cCtx
        (List.replicate 3
            { baseEnv cRequest (.ok cResponseGood) with brpopResult := .ok none } ++
          [baseEnv cRequest (.ok cResponseGood)]) =
      (List.replicate 3 (Event.brpop cCtx.module.path
          (Rat.floor cCtx.config.redis_blocking_timeout)) ++
        (start_polling cCtx [baseEnv cRequest (.ok cResponseGood)]).1,
        (start_polling cCtx [baseEnv cRequest (.ok cResponseGood)]).2) := by
  have h := C8_timeout_floored_and_recoverable cCtx
    { baseEnv cRequest (.ok cResponseGood) with brpopResult := .ok none }
    3 [baseEnv cRequest (.ok cResponseGood)] rfl
  exact ⟨h.1 _, h.2.1, h.2.2.1, h.2.2.2⟩

/-- C7: an iteration whose decoded request carries an empty `msg_uuid`
raises `NoMessageIdError` with nothing but the pop in its trace (so no
reply push and no persistence), the loop disposes of that exception with
the silent `pass` clause (no error logging), and the loop continues with
the remaining script unchanged. -/
theorem C7_empty_uuid_dropped_silently (ctx : WorkerContext) (env : Env)
    (data : Bytes) (request : MsgRequest) (rest : List Env)
    (hbr : env.brpopResult = .ok (some (encode_path ctx.module.path, data)))
    (hdec : env.decodeRequest data = .ok request)
    (huuid : request.msg_uuid = "") :
    polling_iter ctx env =
      ([Event.brpop ctx.module.path
          (Rat.floor ctx.config.redis_blocking_timeout)],
        some .noMessageIdError) ∧
    classify_loop_exc .noMessageIdError = .continueSilent ∧
    start_polling ctx (env :: rest) =
      (Event.brpop ctx.module.path
          (Rat.floor ctx.config.redis_blocking_timeout) ::
        (start_polling ctx rest).1, (start_polling ctx rest).2) := by
  have hiter : polling_iter ctx env =
      ([Event.brpop ctx.module.path
          (Rat.floor ctx.config.redis_blocking_timeout)],
        some .noMessageIdError) := by
    simp [polling_iter, polling_iter_body, hbr, hdec, huuid]
  refine ⟨hiter, rfl, ?_⟩
  simp only [start_polling, hiter, classify_loop_exc]
  simp

/-- Witness for C7 with a concrete uncorrelated request. -/
theorem C7_empty_uuid_dropped_silently_witness :
    polling_iter cCtx
        (baseEnv { cRequest with msg_uuid := "" } (.ok cResponseGood)) =
      ([Event.brpop cCtx.module.path
          (Rat.floor cCtx.config.redis_blocking_timeout)],
        some .noMessageIdError) ∧
    classify_loop_exc .noMessageIdError = .continueSilent ∧
    start_polling cCtx
        [baseEnv { cRequest with msg_uuid := "" } (.ok cResponseGood)] =
      (Event.brpop cCtx.module.path
          (Rat.floor cCtx.config.redis_blocking_timeout) ::
        (start_polling cCtx ([] : List Env)).1,
        (start_polling cCtx ([] : List Env)).2) :=
  C7_empty_uuid_dropped_silently cCtx
    (baseEnv { cRequest with msg_uuid := "" } (.ok cResponseGood))
    (strBytes ("payload")) { cRequest with msg_uuid := "" } [] rfl rfl rfl

/-- The trace of `on_message` is the request-persistence trace alone, or,
when the handler ran and returned `resp`, that trace followed by the
response-persistence trace for `resp`. -/
theorem on_message_trace (env : Env) (req : MsgRequest) :
    (on_message env req).1 = (upload_msg_request env req).1 ∨
    ∃ resp, env.moduleRun req = .ok resp ∧
      (on_message env req).1 =
        (upload_msg_request env req).1 ++ (upload_msg_response env resp).1 := by
  rcases h1 : (upload_msg_request env req).2 with _ | exc
  · rcases h2 : env.moduleRun req with exc2 | resp
    · left
      simp only [on_message, h1, h2]
    · right
      refine ⟨resp, rfl, ?_⟩
      rcases h3 : (upload_msg_response env resp).2 with _ | exc3
      · simp only [on_message, h1, h2, h3]
        split <;> rfl
      · simp only [on_message, h1, h2, h3]
  · left
    simp only [on_message, h1]

/-- `on_message` never pushes to a queue. -/
theorem on_message_no_lpush (env : Env) (request : MsgRequest)
    (p : String) (b : Bytes) (x : Int) :
    Event.mqLpush p b x ∉ (on_message env request).1 := by
  intro hm
  have := on_message_events_persist env request _ hm
  simp [Event.isPersist] at this

/-- Every reply-record insert inside `on_message` is for a response the
handler returned. -/
theorem on_message_reply_events (env : Env) (req : MsgRequest)
    (m : String) (er : Option String)
    (he : Event.dbInsertReply m er ∈ (on_message env req).1) :
    ∃ resp, env.moduleRun req = .ok resp ∧ m = resp.msg_uuid ∧
      er = resp.error := by
  rcases on_message_trace env req with h | ⟨resp, hrun, h⟩
  · rw [h] at he
    rcases upload_msg_request_events env req _ he with h2 | ⟨f, _, h2 | h2 | h2⟩ <;>
      simp at h2
  · rw [h] at he
    rcases List.mem_append.mp he with he2 | he2
    · rcases upload_msg_request_events env req _ he2 with h2 | ⟨f, _, h2 | h2 | h2⟩ <;>
        simp at h2
    · rcases upload_msg_response_events env resp _ he2 with h2 | ⟨f, _, h2 | h2 | h2⟩
      · simp only [Event.dbInsertReply.injEq] at h2
        exact ⟨resp, hrun, h2.1, h2.2⟩
      all_goals simp at h2

/-- C2: when the decoded request is correlated and the request persisted,
a raising handler still leaves the requester a reply: `on_message` raises
the wrapped `CommandRuntimeError`, the fallback response carries the
original `msg_uuid` and the fault description in `error`, its encoding is
pushed to the reply path derived from the request with the floored medium
expiry, the iteration returns normally, and the loop proceeds to the next
scripted iteration. -/
theorem C2_handler_fault_becomes_reply (ctx : WorkerContext) (env : Env)
    (data pkt : Bytes) (request : MsgRequest) (e : Exc) (rest : List Env)
    (hbr : env.brpopResult = .ok (some (encode_path ctx.module.path, data)))
    (hdec : env.decodeRequest data = .ok request)
    (huuid : request.msg_uuid ≠ "")
    (hreq : (upload_msg_request env request).2 = none)
    (hrun : env.moduleRun request = .error e)
    (henc : env.encodeResponse
        (errorResponse request.msg_uuid .commandRuntimeError env.now) = .ok pkt)
    (hpush : env.lpushResult = none) :
    (on_message env request).2 = .error .commandRuntimeError ∧
    (errorResponse request.msg_uuid .commandRuntimeError env.now).msg_uuid =
      request.msg_uuid ∧
    (errorResponse request.msg_uuid .commandRuntimeError env.now).error =
      some (Exc.message .commandRuntimeError) ∧
    polling_iter ctx env =
      (Event.brpop ctx.module.path
          (Rat.floor ctx.config.redis_blocking_timeout) ::
        (on_message env request).1 ++
          [Event.mqLpush request.get_response_path pkt
            (Rat.floor ctx.config.redis_expire_medium)], none) ∧
    start_polling ctx (env :: rest) =
      ((polling_iter ctx env).1 ++ (start_polling ctx rest).1,
        (start_polling ctx rest).2) := by
  have hom : (on_message env request).2 = .error .commandRuntimeError := by
    simp only [on_message, hreq, hrun]
  have hpr : polled_response env request =
      errorResponse request.msg_uuid .commandRuntimeError env.now := by
    unfold polled_response
    rw [hom]
  have hiter : polling_iter ctx env =
      (Event.brpop ctx.module.path
          (Rat.floor ctx.config.redis_blocking_timeout) ::
        (on_message env request).1 ++
          [Event.mqLpush request.get_response_path pkt
            (Rat.floor ctx.config.redis_expire_medium)], none) := by
    simp [polling_iter, polling_iter_body, hbr, hdec, huuid, hpr, henc, hpush]
  refine ⟨hom, rfl, rfl, hiter, ?_⟩
  simp only [start_polling, hiter]

/-- The environment of an iteration whose handler raises. -/
def handlerFailEnv : Env :=
  baseEnv cRequest (.error (.externalError ("RuntimeError")))

/-- The encoding `baseEnv` gives the fallback error response for a
handler fault on `cRequest`. -/
def handlerFailPkt : Bytes :=
  strBytes ("req-1;" ++ Exc.message .commandRuntimeError)

/-- Witness for C2 with a concrete raising handler. -/
theorem C2_handler_fault_becomes_reply_witness :
    (on_message handlerFailEnv cRequest).2 = .error .commandRuntimeError ∧
    (errorResponse cRequest.msg_uuid .commandRuntimeError
        handlerFailEnv.now).msg_uuid = cRequest.msg_uuid ∧
    (errorResponse cRequest.msg_uuid .commandRuntimeError
        handlerFailEnv.now).error = some (Exc.message .commandRuntimeError) ∧
    polling_iter cCtx handlerFailEnv =
      (Event.brpop cCtx.module.path
          (Rat.floor cCtx.config.redis_blocking_timeout) ::
        (on_message handlerFailEnv cRequest).1 ++
          [Event.mqLpush cRequest.get_response_path handlerFailPkt
            (Rat.floor cCtx.config.redis_expire_medium)], none) ∧
    start_polling cCtx (handlerFailEnv :: []) =
      ((polling_iter cCtx handlerFailEnv).1 ++
          (start_polling cCtx ([] : List Env)).1,
        (start_polling cCtx ([] : List Env)).2) :=
  C2_handler_fault_becomes_reply cCtx handlerFailEnv (strBytes ("payload"))
    handlerFailPkt cRequest (.externalError ("RuntimeError")) [] rfl rfl
    (by decide) rfl rfl rfl rfl

/-- C1: when the persisted request reaches a handler whose response
carries a different `msg_uuid`, `on_message` raises
`InvalidMessageIdError` (the mismatch is surfaced, not repaired into a
normal result); the fallback reply built from that fault has `error`
populated; and the only packet pushed in the iteration is the encoding of
that fallback — the mismatched response itself is never delivered as a
correct reply. -/
theorem C1_correlation_mismatch_raised (ctx : WorkerContext) (env : Env)
    (data pkt : Bytes) (request : MsgRequest) (response : MsgResponse)
    (hbr : env.brpopResult = .ok (some (encode_path ctx.module.path, data)))
    (hdec : env.decodeRequest data = .ok request)
    (huuid : request.msg_uuid ≠ "")
    (hreq : (upload_msg_request env request).2 = none)
    (hrun : env.moduleRun request = .ok response)
    (hresp : (upload_msg_response env response).2 = none)
    (hmm : response.msg_uuid ≠ request.msg_uuid)
    (henc : env.encodeResponse
        (errorResponse request.msg_uuid .invalidMessageIdError env.now) =
      .ok pkt)
    (hpush : env.lpushResult = none) :
    (on_message env request).2 = .error .invalidMessageIdError ∧
    (errorResponse request.msg_uuid .invalidMessageIdError env.now).error =
      some (Exc.message .invalidMessageIdError) ∧
    polling_iter ctx env =
      (Event.brpop ctx.module.path
          (Rat.floor ctx.config.redis_blocking_timeout) ::
        (on_message env request).1 ++
          [Event.mqLpush request.get_response_path pkt
            (Rat.floor ctx.config.redis_expire_medium)], none) ∧
    ∀ p b x, Event.mqLpush p b x ∈ (polling_iter ctx env).1 → b = pkt := by
  have hom : (on_message env request).2 = .error .invalidMessageIdError := by
    simp only [on_message, hreq, hrun, hresp]
    simp [hmm]
  have hpr : polled_response env request =
      errorResponse request.msg_uuid .invalidMessageIdError env.now := by
    unfold polled_response
    rw [hom]
  have hiter : polling_iter ctx env =
      (Event.brpop ctx.module.path
          (Rat.floor ctx.config.redis_blocking_timeout) ::
        (on_message env request).1 ++
          [Event.mqLpush request.get_response_path pkt
            (Rat.floor ctx.config.redis_expire_medium)], none) := by
    simp [polling_iter, polling_iter_body, hbr, hdec, huuid, hpr, henc, hpush]
  refine ⟨hom, rfl, hiter, ?_⟩
  intro p b x hm
  rw [show (polling_iter ctx env).1 =
      Event.brpop ctx.module.path
          (Rat.floor ctx.config.redis_blocking_timeout) ::
        (on_message env request).1 ++
          [Event.mqLpush request.get_response_path pkt
            (Rat.floor ctx.config.redis_expire_medium)] from
    congrArg Prod.fst hiter] at hm
  rcases List.mem_cons.mp hm with h | h
  · simp at h
  · rcases List.mem_append.mp h with h | h
    · exact absurd h (on_message_no_lpush env request p b x)
    · have h2 := List.mem_singleton.mp h
      simp only [Event.mqLpush.injEq] at h2
      exact h2.2.1

/-- The environment of an iteration whose handler miscorrelates. -/
def mismatchEnv : Env := baseEnv cRequest (.ok cResponseBad)

/-- The encoding `baseEnv` gives the fallback error response for a
correlation mismatch on `cRequest`. -/
def mismatchPkt : Bytes :=
  strBytes ("req-1;" ++ Exc.message .invalidMessageIdError)

/-- Witness for C1 with a concrete miscorrelating handler. -/
theorem C1_correlation_mismatch_raised_witness :
    (on_message mismatchEnv cRequest).2 = .error .invalidMessageIdError ∧
    polling_iter cCtx mismatchEnv =
      (Event.brpop cCtx.module.path
          (Rat.floor cCtx.config.redis_blocking_timeout) ::
        (on_message mismatchEnv cRequest).1 ++
          [Event.mqLpush cRequest.get_response_path mismatchPkt
            (Rat.floor cCtx.config.redis_expire_medium)], none) :=
  ⟨(C1_correlation_mismatch_raised cCtx mismatchEnv (strBytes ("payload"))
      mismatchPkt cRequest cResponseBad rfl rfl (by decide) rfl rfl rfl
      (by decide) rfl rfl).1,
    (C1_correlation_mismatch_raised cCtx mismatchEnv (strBytes ("payload"))
      mismatchPkt cRequest cResponseBad rfl rfl (by decide) rfl rfl rfl
      (by decide) rfl rfl).2.2.1⟩

/-- C3: when encoding the computed response raises, the iteration raises
`PacketDumpError` (surfaced out of the iteration, not swallowed into a
normal return) and its trace contains no queue push at all. -/
theorem C3_encode_fault_raised (ctx : WorkerContext) (env : Env)
    (data : Bytes) (request : MsgRequest) (e : Exc)
    (hbr : env.brpopResult = .ok (some (encode_path ctx.module.path, data)))
    (hdec : env.decodeRequest data = .ok request)
    (huuid : request.msg_uuid ≠ "")
    (henc : env.encodeResponse (polled_response env request) = .error e) :
    polling_iter ctx env =
      (Event.brpop ctx.module.path
          (Rat.floor ctx.config.redis_blocking_timeout) ::
        (on_message env request).1, some .packetDumpError) ∧
    ∀ p b x, Event.mqLpush p b x ∉ (polling_iter ctx env).1 := by
  have hiter : polling_iter ctx env =
      (Event.brpop ctx.module.path
          (Rat.floor ctx.config.redis_blocking_timeout) ::
        (on_message env request).1, some .packetDumpError) := by
    simp [polling_iter, polling_iter_body, hbr, hdec, huuid, henc]
  refine ⟨hiter, ?_⟩
  intro p b x hm
  rw [show (polling_iter ctx env).1 =
      Event.brpop ctx.module.path
          (Rat.floor ctx.config.redis_blocking_timeout) ::
        (on_message env request).1 from congrArg Prod.fst hiter] at hm
  rcases List.mem_cons.mp hm with h | h
  · simp at h
  · exact absurd h (on_message_no_lpush env request p b x)

/-- The environment of an iteration whose response encoding raises. -/
def encodeFailEnv : Env :=
  { baseEnv cRequest (.ok cResponseGood) with
      encodeResponse := fun _ => .error (.externalError ("TypeError")) }

/-- Witness for C3 with a concrete failing encoder. -/
theorem C3_encode_fault_raised_witness :
    polling_iter cCtx encodeFailEnv =
      (Event.brpop cCtx.module.path
          (Rat.floor cCtx.config.redis_blocking_timeout) ::
        (on_message encodeFailEnv cRequest).1, some .packetDumpError) :=
  (C3_encode_fault_raised cCtx encodeFailEnv (strBytes ("payload")) cRequest
    (.externalError ("TypeError")) rfl rfl (by decide) rfl).1

/-- C10: when `on_message` raises and the fallback error response is
built, the iteration appends only the reply push to the events `on_message`
already emitted — the fallback response is pushed but never persisted (no
reply record, no file upload for it); and any reply record in the
iteration belongs to a response the handler returned from a successful
`run`, carrying that response's identifier and error fields. -/
theorem C10_fallback_reply_not_persisted (ctx : WorkerContext) (env : Env)
    (data pkt : Bytes) (request : MsgRequest) (e : Exc)
    (hbr : env.brpopResult = .ok (some (encode_path ctx.module.path, data)))
    (hdec : env.decodeRequest data = .ok request)
    (huuid : request.msg_uuid ≠ "")
    (herr : (on_message env request).2 = .error e)
    (henc : env.encodeResponse (errorResponse request.msg_uuid e env.now) =
      .ok pkt)
    (hpush : env.lpushResult = none) :
    polling_iter ctx env =
      (Event.brpop ctx.module.path
          (Rat.floor ctx.config.redis_blocking_timeout) ::
        (on_message env request).1 ++
          [Event.mqLpush request.get_response_path pkt
            (Rat.floor ctx.config.redis_expire_medium)], none) ∧
    ∀ m er, Event.dbInsertReply m er ∈ (polling_iter ctx env).1 →
      ∃ resp, env.moduleRun request = .ok resp ∧ m = resp.msg_uuid ∧
        er = resp.error := by
  have hpr : polled_response env request =
      errorResponse request.msg_uuid e env.now := by
    unfold polled_response
    rw [herr]
  have hiter : polling_iter ctx env =
      (Event.brpop ctx.module.path
          (Rat.floor ctx.config.redis_blocking_timeout) ::
        (on_message env request).1 ++
          [Event.mqLpush request.get_response_path pkt
            (Rat.floor ctx.config.redis_expire_medium)], none) := by
    simp [polling_iter, polling_iter_body, hbr, hdec, huuid, hpr, henc, hpush]
  refine ⟨hiter, ?_⟩
  intro m er hm
  rw [show (polling_iter ctx env).1 =
      Event.brpop ctx.module.path
          (Rat.floor ctx.config.redis_blocking_timeout) ::
        (on_message env request).1 ++
          [Event.mqLpush request.get_response_path pkt
            (Rat.floor ctx.config.redis_expire_medium)] from
    congrArg Prod.fst hiter] at hm
  rcases List.mem_cons.mp hm with h | h
  · simp at h
  · rcases List.mem_append.mp h with h | h
    · exact on_message_reply_events env request m er h
    · have h2 := List.mem_singleton.mp h
      simp at h2

/-- The environment of an iteration whose database rejects the reply
record after a successful handler run. -/
def replyInsertFailEnv : Env :=
  { baseEnv cRequest (.ok cResponseGood) with
      insertReply := fun _ => some (.externalError ("DbError")) }

/-- The encoding `baseEnv` gives the fallback error response built from
the database fault. -/
def replyInsertFailPkt : Bytes :=
  strBytes ("req-1;" ++ Exc.message (.externalError ("DbError")))

/-- Witness for C10: a reply-record insert fault makes the fallback reply,
which is pushed without any further persistence. -/
theorem C10_fallback_reply_not_persisted_witness :
    polling_iter cCtx replyInsertFailEnv =
      (Event.brpop cCtx.module.path
          (Rat.floor cCtx.config.redis_blocking_timeout) ::
        (on_message replyInsertFailEnv cRequest).1 ++
          [Event.mqLpush cRequest.get_response_path replyInsertFailPkt
            (Rat.floor cCtx.config.redis_expire_medium)], none) :=
  (C10_fallback_reply_not_persisted cCtx replyInsertFailEnv
    (strBytes ("payload")) replyInsertFailPkt cRequest
    (.externalError ("DbError")) rfl rfl (by decide) rfl rfl rfl).1

/-- C4 counterexample: a response-encoding fault (`PacketDumpError`) is
none of the four kinds the claim enumerates (timeout, decode,
no-correlation-key, handler/runtime), yet the loop catches it through the
`except OsomApiError` clause and keeps running instead of letting it
propagate out of `start_polling`. -/
theorem C4_enumeration_counterexample :
    (polling_iter cCtx encodeFailEnv).2 = some .packetDumpError ∧
    Exc.packetDumpError ≠ .pollingTimeoutError ∧
    Exc.packetDumpError ≠ .packetLoadError ∧
    Exc.packetDumpError ≠ .noMessageIdError ∧
    Exc.packetDumpError ≠ .commandRuntimeError ∧
    classify_loop_exc .packetDumpError ≠ .propagate ∧
    (start_polling cCtx [encodeFailEnv]).2 = none := by
  decide

/-- C4 (amended): a fault raised by an iteration propagates out of
`start_polling`, terminating the loop with the remaining script
unprocessed, exactly when it is not an `OsomApiError` (not one of the
recognized exception classes); recognized `OsomApiError` faults — the
encode fault included — are caught and the loop continues. -/
theorem C4_unclassified_fault_propagates (ctx : WorkerContext) (env : Env)
    (rest : List Env) (exc : Exc)
    (h : (polling_iter ctx env).2 = some exc)
    (hn : exc.isOsomApiError = false) :
    classify_loop_exc exc = .propagate ∧
    start_polling ctx (env :: rest) = ((polling_iter ctx env).1, some exc) ∧
    ∀ e2 : Exc, (classify_loop_exc e2 = .propagate ↔
      e2.isOsomApiError = false) := by
  have hcl : classify_loop_exc exc = .propagate := by
    cases exc <;> simp_all [classify_loop_exc, Exc.isOsomApiError]
  refine ⟨hcl, ?_, ?_⟩
  · simp only [start_polling, h, hcl]
  · intro e2
    cases e2 <;> simp [classify_loop_exc, Exc.isOsomApiError]

/-- The environment of an iteration whose blocking pop raises an
unrecognized transport exception. -/
def brpopCrashEnv : Env :=
  { baseEnv cRequest (.ok cResponseGood) with
      brpopResult := .error (.externalError ("ConnectionError")) }

/-- Witness for the amended C4: a transport exception from the pop escapes
the loop with the rest of the script unprocessed. -/
theorem C4_unclassified_fault_propagates_witness :
    classify_loop_exc (.externalError ("ConnectionError")) = .propagate ∧
    start_polling cCtx
        [brpopCrashEnv, baseEnv cRequest (.ok cResponseGood)] =
      ((polling_iter cCtx brpopCrashEnv).1,
        some (.externalError ("ConnectionError"))) :=
  ⟨(C4_unclassified_fault_propagates cCtx brpopCrashEnv
      [baseEnv cRequest (.ok cResponseGood)]
      (.externalError ("ConnectionError")) rfl rfl).1,
    (C4_unclassified_fault_propagates cCtx brpopCrashEnv
      [baseEnv cRequest (.ok cResponseGood)]
      (.externalError ("ConnectionError")) rfl rfl).2.1⟩

end OsomWorker
